import Mathlib

/-!
Shallow embedding of the System Python 3.13 enforcement core of
`mcp-manager` (modules `python_env.py`, `uv_config.py`,
`models/python_enforcement.py`, `validators/python_enforcement_validator.py`),
together with proofs settling the specification claims about it.

The outside world (filesystem, subprocesses, `sys`/`platform` attributes) is
modelled by an explicit `World` record of oracles; every embedded function is
deterministic in the `World`.  Python exceptions raised by the pydantic model
validators are modelled with `Except String`.  All string manipulation is
embedded at the `List Char` level (a `String` in Lean is a wrapper around its
list of characters), mirroring the corresponding Python `str` operations.
-/

namespace MCPManager

/-- World record: the ambient state a validation run observes.  `pathExists` /
`pathIsFile` model `Path.exists()` / `Path.is_file()`; `readFile` models
opening a file and reading its text (`none` = missing file or `IOError`);
`runVersion` models running `<path> --version` and returns `(stdout, stderr)`
or `none` on timeout / subprocess error; `uvOnPath` models
`shutil.which("uv") is not None`; the remaining fields model
`platform.system()`, `platform.machine()`, `sys.prefix`, `sys.base_prefix`
and `hasattr(sys, "real_prefix")`. -/
structure World where
  pathExists : String → Bool
  pathIsFile : String → Bool
  readFile : String → Option String
  runVersion : String → Option (String × String)
  uvOnPath : Bool
  platformSystem : String
  platformMachine : String
  sysPrefixPath : String
  sysBasePrefixPath : String
  sysHasRealPrefixFlag : Bool

/-- Character-list version of Python `str.startswith`. -/
def startsWithL : List Char → List Char → Bool
  | _, [] => true
  | [], _ :: _ => false
  | a :: as, b :: bs => a = b && startsWithL as bs

/-- Character-list version of Python `needle in haystack` (substring test). -/
def listContains : List Char → List Char → Bool
  | h, n =>
    if startsWithL h n then true
    else match h with
      | [] => false
      | _ :: t => listContains t n

/-- String wrapper for `listContains`. -/
def strContains (haystack needle : String) : Bool :=
  listContains haystack.data needle.data

/-- Split a character list at every character satisfying `p`, keeping empty
segments (the semantics of Python `str.split(sep)` for a one-character
separator, with `p` the equality test). -/
def splitPred (p : Char → Bool) : List Char → List (List Char)
  | [] => [[]]
  | c :: cs =>
    if p c then [] :: splitPred p cs
    else
      match splitPred p cs with
      | t :: ts => (c :: t) :: ts
      | [] => [[c]]

/-- Python `str.split()` with no argument: split on whitespace runs and drop
empty tokens. -/
def wsSplit (l : List Char) : List (List Char) :=
  (splitPred Char.isWhitespace l).filter (fun t => !t.isEmpty)

/-- Python `str.split(sep)` for a single-character separator. -/
def splitOnCharL (sep : Char) (l : List Char) : List (List Char) :=
  splitPred (fun c => c = sep) l

/-- Strip every leading and trailing character satisfying `p`
(Python `str.strip(chars)` semantics). -/
def stripPredL (p : Char → Bool) (l : List Char) : List Char :=
  ((l.dropWhile p).reverse.dropWhile p).reverse

/-- Python `str.strip()` (no argument): strip surrounding whitespace. -/
def trimWsL (l : List Char) : List Char :=
  stripPredL Char.isWhitespace l

/-- Python `str.strip()` lifted to `String`. -/
def pyStrip (s : String) : String :=
  String.mk (trimWsL s.data)

/-- Decimal value of a list of digit characters (the value Python `int`
assigns to a string of ASCII digits). -/
def natOfDigits (l : List Char) : Nat :=
  l.foldl (fun n ch => n * 10 + (ch.toNat - 48)) 0

/-- Interpret a character list as a natural number: succeeds exactly on a
nonempty all-digit list. -/
def digitsToNat? (l : List Char) : Option Nat :=
  if l ≠ [] ∧ l.all Char.isDigit then some (natOfDigits l) else none

/-- Python `int(s)` on a string: surrounding whitespace is stripped, one
optional sign is allowed, the remainder must be a nonempty digit run.
(`ValueError` is modelled as `none`; numeric-literal underscores and
non-ASCII digits are not modelled.) -/
def pyIntL (l0 : List Char) : Option Int :=
  let l := trimWsL l0
  if l.head? = some '-' then (digitsToNat? l.tail).map (fun n => -(n : Int))
  else if l.head? = some '+' then (digitsToNat? l.tail).map (fun n => (n : Int))
  else (digitsToNat? l).map (fun n => (n : Int))

/-- Parser core of `get_python_version` (python_env.py lines 100-123), on the
stripped probe output: reject empty output; require the `"Python "` label;
take the second whitespace token; split it on `.`; require at least three
components; take the leading digit run of the third component (tolerating
suffixes such as `rc1`); convert with Python `int` semantics, any conversion
failure (`ValueError` / `IndexError`) yielding `none`. -/
def parseVersionOutputL (out : List Char) : Option (Int × Int × Int) :=
  if out = [] then none
  else if startsWithL out ("Python ".data) then
    match wsSplit out with
    | _ :: versionStr :: _ =>
      match splitOnCharL '.' versionStr with
      | p0 :: p1 :: p2 :: _ =>
        let microStr := p2.takeWhile Char.isDigit
        if microStr = [] then none
        else
          match pyIntL p0, pyIntL p1 with
          | some a, some b => some (a, b, (natOfDigits microStr : Int))
          | _, _ => none
      | _ => none
    | _ => none
  else none

/-- Parser of `get_python_version` on a probe output `String`. -/
def parseVersionOutput (out : String) : Option (Int × Int × Int) :=
  parseVersionOutputL out.data

/-- Embedding of `get_python_version` (python_env.py lines 63-126): `none` if
the executable is missing, the subprocess times out or errors, or the output
is unparsable; otherwise the parsed `(major, minor, micro)` triple.  The
stream actually parsed is stripped stdout if nonempty, else stripped stderr
(`output = result.stdout.strip() or result.stderr.strip()`). -/
def get_python_version (w : World) (python_path : String) : Option (Int × Int × Int) :=
  if w.pathExists python_path then
    match w.runVersion python_path with
    | none => none
    | some (out, err) =>
      let o := trimWsL out.data
      let output := if o.isEmpty then trimWsL err.data else o
      parseVersionOutputL output
  else none

/-- Embedding of `is_python_313` (python_env.py lines 129-154): the probe
succeeds and the version is exactly 3.13.x. -/
def is_python_313 (w : World) (python_path : String) : Bool :=
  match get_python_version w python_path with
  | none => false
  | some v => v.1 = 3 && v.2.1 = 13

/-- Priority-ordered search paths for Python 3.13 (python_env.py lines 21-25). -/
def PYTHON_SEARCH_PATHS : List String :=
  ["/usr/bin/python3.13", "/usr/local/bin/python3.13", "/opt/homebrew/bin/python3.13"]

/-- Loop body of `find_system_python`: for each candidate in order, if it
exists and is a regular file and `is_python_313` holds, return it. -/
def findFirstPython (w : World) : List String → Option String
  | [] => none
  | p :: rest =>
    if w.pathExists p && w.pathIsFile p then
      if is_python_313 w p then some p else findFirstPython w rest
    else findFirstPython w rest

/-- Embedding of `find_system_python` (python_env.py lines 28-60). -/
def find_system_python (w : World) : Option String :=
  findFirstPython w PYTHON_SEARCH_PATHS

/-- Association-list lookup modelling Python `dict.get(key)`.  Parsers below
prepend newer bindings, so the first match is the most recent one, matching
dict-overwrite semantics. -/
def dget (d : List (String × String)) (k : String) : Option String :=
  (d.find? (fun kv => kv.1 = k)).map (fun kv => kv.2)

/-- Dictionary of `KEY=value` lines of `/etc/os-release`, with surrounding
double quotes stripped from values (python_env.py lines 199-207); later lines
overwrite earlier ones. -/
def osReleaseDict (content : String) : List (String × String) :=
  (splitOnCharL (Char.ofNat 10) content.data).foldl (fun d l =>
    let line := trimWsL l
    if line.contains '=' then
      (String.mk (line.takeWhile (fun c => c ≠ '=')),
       String.mk (stripPredL (fun c => c = Char.ofNat 34)
         ((line.dropWhile (fun c => c ≠ '=')).drop 1))) :: d
    else d) []

/-- Embedding of `detect_distribution` (python_env.py lines 157-226). -/
def detect_distribution (w : World) : String :=
  if w.platformSystem = "Darwin" then
    if w.platformMachine = "arm64" then "macOS (Apple Silicon)" else "macOS (Intel)"
  else if w.platformSystem = "Linux" then
    if w.pathExists "/etc/os-release" then
      match w.readFile "/etc/os-release" with
      | none => "Linux"
      | some content =>
        let d := osReleaseDict content
        let name := (dget d "NAME").getD "Linux"
        let version := (dget d "VERSION_ID").getD ""
        if version ≠ "" then name ++ " " ++ version else name
    else "Linux"
  else w.platformSystem

/-- Scan of pyvenv.cfg lines for the first `home = ` line, returning the part
after the first `=`, stripped (python_env.py lines 280-286). -/
def findHomeLine : List (List Char) → Option String
  | [] => none
  | l :: rest =>
    let line := trimWsL l
    if startsWithL line ("home = ".data) then
      some (String.mk (trimWsL ((line.dropWhile (fun c => c ≠ '=')).drop 1)))
    else findHomeLine rest

/-- Embedding of `get_venv_base_python` (python_env.py lines 229-308) for the
argumentless call made by the orchestrator: detect a virtual environment via
`sys.real_prefix` / `sys.base_prefix != sys.prefix`, parse `pyvenv.cfg` under
`sys.prefix`, and compose the base interpreter path (versioned name first,
then a generic `python3` checked with `is_python_313`). -/
def get_venv_base_python (w : World) : Option String :=
  if w.sysHasRealPrefixFlag || (w.sysBasePrefixPath ≠ w.sysPrefixPath) then
    let cfgPath := w.sysPrefixPath ++ "/pyvenv.cfg"
    if w.pathExists cfgPath then
      match w.readFile cfgPath with
      | none => none
      | some content =>
        match findHomeLine (splitOnCharL (Char.ofNat 10) content.data) with
        | none => none
        | some home =>
          let p1 := home ++ "/python3.13"
          if w.pathExists p1 && w.pathIsFile p1 then some p1
          else
            let p2 := home ++ "/python3"
            if w.pathExists p2 && w.pathIsFile p2 then
              if is_python_313 w p2 then some p2 else none
            else none
    else none
  else none

/-- Installation-source classification (source values of python_env.py). -/
inductive PySource
  | package_manager
  | manual_install
  | unknown
deriving DecidableEq, Repr, Inhabited

/-- Embedding of `get_installation_source` (python_env.py lines 311-346). -/
def get_installation_source (python_path : String) : PySource :=
  if startsWithL python_path.data ("/usr/bin/".data) then .package_manager
  else if startsWithL python_path.data ("/opt/homebrew/bin/".data) then .package_manager
  else if startsWithL python_path.data ("/usr/local/bin/".data) then .manual_install
  else .unknown

/-- Embedding of `check_uv_installed` (uv_config.py lines 23-41). -/
def check_uv_installed (w : World) : Bool :=
  w.uvOnPath

/-- Embedding of `get_uv_config_path` (uv_config.py lines 44-98), in the
toml-library-absent environment: the fallback branch detects a `[tool.uv]`
section by a substring test on the raw pyproject.toml text. -/
def get_uv_config_path (w : World) (project_root : String) : Option String :=
  let uvToml := project_root ++ "/uv.toml"
  if w.pathExists uvToml && w.pathIsFile uvToml then some uvToml
  else
    let pyproject := project_root ++ "/pyproject.toml"
    if w.pathExists pyproject && w.pathIsFile pyproject then
      match w.readFile pyproject with
      | none => none
      | some content => if strContains content "[tool.uv]" then some pyproject else none
    else none

/-- Value cleanup of the fallback parsers:
`value.strip().strip(<doublequote>).strip(<quote>)`. -/
def parseKVValue (v : List Char) : List Char :=
  stripPredL (fun c => c = Char.ofNat 39)
    (stripPredL (fun c => c = Char.ofNat 34) (trimWsL v))

/-- Embedding of the `_parse_uv_toml` fallback branch (uv_config.py lines
195-210): line-oriented `key = value` scan skipping blank and `#` lines;
newer bindings are prepended (dict overwrite). -/
def parseUvToml (content : String) : List (String × String) :=
  (splitOnCharL (Char.ofNat 10) content.data).foldl (fun d l =>
    let line := trimWsL l
    if line.isEmpty || startsWithL line ("#".data) then d
    else if line.contains '=' then
      (String.mk (trimWsL (line.takeWhile (fun c => c ≠ '='))),
       String.mk (parseKVValue ((line.dropWhile (fun c => c ≠ '=')).drop 1))) :: d
    else d) []

/-- Recursion of the `_parse_pyproject_toml` fallback branch (uv_config.py
lines 227-251): track whether the scan is inside `[tool.uv]`, stop at the
next section header, collect `key = value` lines. -/
def parsePyprojectLines (acc : List (String × String)) (inSection : Bool) :
    List (List Char) → List (String × String)
  | [] => acc
  | l :: rest =>
    let line := trimWsL l
    if line = "[tool.uv]".data then parsePyprojectLines acc true rest
    else if inSection && startsWithL line ("[".data) then acc
    else if inSection && line.contains '=' && !startsWithL line ("#".data) then
      parsePyprojectLines
        ((String.mk (trimWsL (line.takeWhile (fun c => c ≠ '='))),
          String.mk (parseKVValue ((line.dropWhile (fun c => c ≠ '=')).drop 1))) :: acc)
        inSection rest
    else parsePyprojectLines acc inSection rest

/-- Embedding of `_parse_pyproject_toml` (fallback branch). -/
def parsePyprojectTomlSection (content : String) : List (String × String) :=
  parsePyprojectLines [] false (splitOnCharL (Char.ofNat 10) content.data)

/-- Result dictionary of `validate_uv_config` (uv_config.py lines 142-147). -/
structure UVConfigDict where
  config_file : Option String
  python_downloads : Option String
  python_preference : Option String
  python_version_pinned : Option String
deriving DecidableEq, Repr

/-- Python `a or b` on optional strings: `a` unless it is `None` or empty. -/
def pyOrStr : Option String → Option String → Option String
  | some s, b => if s = "" then b else some s
  | none, b => b

/-- Python `Path.name`: the last `/`-separated component. -/
def pathNameOf (p : String) : String :=
  match (splitOnCharL '/' p.data).getLast? with
  | some l => String.mk l
  | none => ""

/-- Embedding of `validate_uv_config` (uv_config.py lines 101-191): locate the
config file, parse it with the matching fallback parser (any read failure
leaves the settings `None`), extract the two policy keys (hyphenated spelling
preferred over underscored), and independently record the stripped content of
a nonempty `.python-version` file. -/
def validate_uv_config (w : World) (project_root : String) : UVConfigDict :=
  let base : UVConfigDict := ⟨none, none, none, none⟩
  let r1 :=
    match get_uv_config_path w project_root with
    | none => base
    | some cp =>
      let withFile := { base with config_file := some cp }
      match w.readFile cp with
      | none => withFile
      | some content =>
        let cfg := if pathNameOf cp = "uv.toml" then parseUvToml content
                   else parsePyprojectTomlSection content
        { withFile with
          python_downloads := pyOrStr (dget cfg "python-downloads") (dget cfg "python_downloads"),
          python_preference := pyOrStr (dget cfg "python-preference") (dget cfg "python_preference") }
  let pvf := project_root ++ "/.python-version"
  if w.pathExists pvf && w.pathIsFile pvf then
    match w.readFile pvf with
    | none => r1
    | some content =>
      let v := pyStrip content
      if v ≠ "" then { r1 with python_version_pinned := some v } else r1
  else r1

/-- Values of the `python_downloads` Literal of `UVConfiguration`
(models/python_enforcement.py lines 180-183), minus `None` which is modelled
with `Option`. -/
inductive PyDownloads
  | automatic
  | manual
  | never
deriving DecidableEq, Repr, Inhabited

/-- Values of the `python_preference` Literal of `UVConfiguration`
(models/python_enforcement.py lines 185-190), minus `None`. -/
inductive PyPreference
  | only_managed
  | managed
  | system
  | only_system
deriving DecidableEq, Repr, Inhabited

/-- Python `str()` rendering of an optional download policy, as interpolated
into f-strings (`None` for the absent case). -/
def showDownloads : Option PyDownloads → String
  | none => "None"
  | some .automatic => "automatic"
  | some .manual => "manual"
  | some .never => "never"

/-- Python `str()` rendering of an optional preference setting. -/
def showPreference : Option PyPreference → String
  | none => "None"
  | some .only_managed => "only-managed"
  | some .managed => "managed"
  | some .system => "system"
  | some .only_system => "only-system"

/-- Pydantic Literal validation of a raw `python_downloads` value; a string
outside the Literal set raises a ValidationError (modelled as `Except.error`
with a generic message, the exact pydantic wording being library-generated). -/
def parsePyDownloads : Option String → Except String (Option PyDownloads)
  | none => .ok none
  | some "automatic" => .ok (some .automatic)
  | some "manual" => .ok (some .manual)
  | some "never" => .ok (some .never)
  | some s => .error ("invalid python_downloads literal: " ++ s)

/-- Pydantic Literal validation of a raw `python_preference` value. -/
def parsePyPreference : Option String → Except String (Option PyPreference)
  | none => .ok none
  | some "only-managed" => .ok (some .only_managed)
  | some "managed" => .ok (some .managed)
  | some "system" => .ok (some .system)
  | some "only-system" => .ok (some .only_system)
  | some s => .error ("invalid python_preference literal: " ++ s)

/-- Embedding of the `PythonEnvironment` pydantic model
(models/python_enforcement.py lines 19-144); the frozen model is an immutable
record.  `version` is an `Int` triple since the components come from Python
`int()`. -/
structure PythonEnvironment where
  executable_path : String
  version : Int × Int × Int
  source : PySource
  distribution : String
  is_valid : Bool
  in_virtualenv : Bool
  venv_base_python : Option String
deriving DecidableEq, Repr, Inhabited

/-- Rendering `f"{v[0]}.{v[1]}.{v[2]}"` of a version triple. -/
def showVerTuple (v : Int × Int × Int) : String :=
  toString v.1 ++ "." ++ toString v.2.1 ++ "." ++ toString v.2.2

/-- The `version_string` property (models/python_enforcement.py lines 123-130). -/
def PythonEnvironment.version_string (e : PythonEnvironment) : String :=
  showVerTuple e.version

/-- Construction of a `PythonEnvironment`, running the two pydantic field
validators in field order: `validate_path_exists` (lines 103-121, the path
must exist and be a regular file) and `validate_version_313` (lines 85-101,
the version must be 3.13.x).  A failing validator raises a ValidationError,
modelled as `Except.error` carrying the first failing validator's message. -/
def mkPythonEnvironment (w : World) (executable_path : String) (version : Int × Int × Int)
    (source : PySource) (distribution : String) (is_valid in_virtualenv : Bool)
    (venv_base_python : Option String) : Except String PythonEnvironment :=
  if !w.pathExists executable_path then
    .error ("Python executable not found: " ++ executable_path)
  else if !w.pathIsFile executable_path then
    .error ("Python path is not a file: " ++ executable_path)
  else if !(version.1 = 3 && version.2.1 = 13) then
    .error ("Python version must be 3.13.x, got " ++ showVerTuple version)
  else
    .ok ⟨executable_path, version, source, distribution, is_valid, in_virtualenv,
         venv_base_python⟩

/-- Embedding of the `UVConfiguration` pydantic model
(models/python_enforcement.py lines 147-290). -/
structure UVConfiguration where
  config_file_path : String
  python_downloads : Option PyDownloads
  python_preference : Option PyPreference
  python_version_pinned : Option String
  is_compliant : Bool
  compliance_violations : List String
deriving DecidableEq, Repr, Inhabited

/-- The `prevents_python_downloads` property (lines 225-232). -/
def UVConfiguration.prevents_python_downloads (c : UVConfiguration) : Bool :=
  c.python_downloads = some .manual || c.python_downloads = some .never

/-- The `uses_only_system_python` property (lines 234-241). -/
def UVConfiguration.uses_only_system_python (c : UVConfiguration) : Bool :=
  c.python_preference = some .only_system

/-- The `has_python_version_pin` property (lines 243-250). -/
def UVConfiguration.has_python_version_pin (c : UVConfiguration) : Bool :=
  c.python_version_pinned.isSome

/-- Embedding of `UVConfiguration.check_compliance` (lines 252-286).  The
source mutates `compliance_violations` and `is_compliant` in place; the
embedding returns the updated record.  The three rules run unconditionally,
in source order, and `is_compliant` is recomputed as `len(violations) == 0`. -/
def UVConfiguration.check_compliance (c : UVConfiguration) : UVConfiguration :=
  let violations :=
    (if !c.prevents_python_downloads then
      ["UV allows Python downloads (python-downloads=" ++ showDownloads c.python_downloads ++
       "). Must be \x27manual\x27 or \x27never\x27."]
     else []) ++
    (if !c.uses_only_system_python then
      ["UV not configured for system-only Python (python-preference=" ++
       showPreference c.python_preference ++ "). Must be \x27only-system\x27."]
     else []) ++
    (if !c.has_python_version_pin then
      ["Missing .python-version file to pin Python 3.13"]
     else [])
  { c with compliance_violations := violations, is_compliant := violations.length = 0 }

/-- Construction of a `UVConfiguration`, running the pydantic validation in
field order: `validate_config_exists` (lines 207-223, the config file path
must exist) and the two Literal checks on the raw parsed strings. -/
def mkUVConfiguration (w : World) (config_file_path : String)
    (python_downloads python_preference python_version_pinned : Option String)
    (is_compliant : Bool) (compliance_violations : List String) :
    Except String UVConfiguration :=
  if !w.pathExists config_file_path then
    .error ("UV config file not found: " ++ config_file_path)
  else
    match parsePyDownloads python_downloads, parsePyPreference python_preference with
    | .ok pd, .ok pp =>
      .ok ⟨config_file_path, pd, pp, python_version_pinned, is_compliant,
           compliance_violations⟩
    | .error e, _ => .error e
    | .ok _, .error e => .error e

/-- The validation status Literal of `ValidationResult`. -/
inductive VStatus
  | PASS
  | FAIL
  | ERROR
deriving DecidableEq, Repr, Inhabited

/-- Embedding of the `ValidationResult` pydantic model
(models/python_enforcement.py lines 293-498).  The `timestamp` field
(wall-clock creation time) is not modelled; no claim concerns it. -/
structure ValidationResult where
  status : VStatus
  python_environment : Option PythonEnvironment
  uv_configuration : Option UVConfiguration
  errors : List String
  warnings : List String
  checks_performed : List String
deriving DecidableEq, Repr, Inhabited

/-- The `exit_code` property (lines 359-370): PASS maps to 0, FAIL to 1,
ERROR to 2. -/
def ValidationResult.exit_code (r : ValidationResult) : Nat :=
  match r.status with
  | .PASS => 0
  | .FAIL => 1
  | .ERROR => 2

/-- Python `sep.join(parts)`. -/
def pyJoin (sep : String) : List String → String
  | [] => ""
  | [x] => x
  | x :: xs => x ++ sep ++ pyJoin sep xs

/-- Embedding of `ValidationResult.to_summary` (lines 384-417).  The PASS
branch asserts that the environment and configuration are present; a failing
`assert` raises, modelled as `Except.error`.  The FAIL branch renders only
the violations of `uv_configuration` (when present); the ERROR branch
renders `errors`. -/
def ValidationResult.to_summary (r : ValidationResult) : Except String String :=
  match r.status with
  | .PASS =>
    match r.python_environment, r.uv_configuration with
    | some env, some cfg =>
      .ok ("✓ PASS: System Python 3.13 enforcement validated\n  Python: " ++
           env.executable_path ++ " (" ++ env.version_string ++
           ")\n  UV Config: Compliant (only-system, downloads=" ++
           showDownloads cfg.python_downloads ++ ")")
    | _, _ => .error "AssertionError"
  | .FAIL =>
    let violations :=
      match r.uv_configuration with
      | some cfg => cfg.compliance_violations
      | none => []
    .ok ("✗ FAIL: Constitution violations detected\n  " ++ pyJoin "\n  " violations)
  | .ERROR =>
    .ok ("✗ ERROR: Validation could not complete\n  " ++ pyJoin "\n  " r.errors)

/-- Python `str(Path.parent)`: the path with its last `/`-component removed. -/
def parentDirOf (p : String) : String :=
  pyJoin "/" ((splitOnCharL '/' p.data).dropLast.map String.mk)

/-- Step 5 of the orchestrator (python_enforcement_validator.py lines
233-257): a compliant configuration yields PASS, otherwise FAIL; both carry
empty `errors`. -/
def finalizeResult (python_environment : PythonEnvironment)
    (uv_configuration : UVConfiguration) (warnings checks : List String)
    (in_virtualenv : Bool) : ValidationResult :=
  if uv_configuration.is_compliant then
    { status := .PASS, python_environment := some python_environment,
      uv_configuration := some uv_configuration, errors := [], warnings := warnings,
      checks_performed :=
        if !in_virtualenv then
          checks ++ ["UV prevents Python downloads", "UV uses system Python only",
                     "No virtual environment conflicts"]
        else
          checks ++ ["UV prevents Python downloads", "UV uses system Python only"] }
  else
    { status := .FAIL, python_environment := some python_environment,
      uv_configuration := some uv_configuration, errors := [], warnings := warnings,
      checks_performed := checks }

/-- Steps 3-5 of the orchestrator after the virtual-environment branch
(python_enforcement_validator.py lines 176-257): construct the
`PythonEnvironment` (with `is_valid=True`), check the UV tool, resolve and
validate the UV configuration — building the documented "minimal" stub at the
expected `uv.toml` location when no config file was found — and finalize. -/
def validateFromEnv (w : World) (project_root : String) (python_path : String)
    (version : Int × Int × Int) (source : PySource) (distribution : String)
    (in_virtualenv : Bool) (venv_base : Option String)
    (checks warnings : List String) : Except String ValidationResult :=
  match mkPythonEnvironment w python_path version source distribution true
      in_virtualenv venv_base with
  | .error e => .error e
  | .ok python_environment =>
    if !check_uv_installed w then
      .ok { status := .ERROR, python_environment := some python_environment,
            uv_configuration := none, errors := ["UV package manager not found in PATH"],
            warnings := warnings,
            checks_performed :=
              checks ++ ["Python from approved path (" ++ parentDirOf python_path ++ ")"] }
    else
      match get_uv_config_path w project_root with
      | none =>
        match mkUVConfiguration w (project_root ++ "/uv.toml") none none
            (validate_uv_config w project_root).python_version_pinned false
            ["UV configuration file not found"] with
        | .error e => .error e
        | .ok uv_configuration =>
          .ok (finalizeResult python_environment uv_configuration
                (warnings ++ ["No UV configuration file found (uv.toml or pyproject.toml)"])
                (checks ++ ["Python from approved path (" ++ parentDirOf python_path ++ ")",
                            "UV package manager detected", "Validated UV configuration"])
                in_virtualenv)
      | some cp =>
        match mkUVConfiguration w cp (validate_uv_config w project_root).python_downloads
            (validate_uv_config w project_root).python_preference
            (validate_uv_config w project_root).python_version_pinned false [] with
        | .error e => .error e
        | .ok cfg0 =>
          .ok (finalizeResult python_environment cfg0.check_compliance warnings
                (checks ++ ["Python from approved path (" ++ parentDirOf python_path ++ ")",
                            "UV package manager detected", "Validated UV configuration",
                            "UV compliance check completed"])
                in_virtualenv)

/-- Embedding of the orchestrator `validate_python_environment`
(python_enforcement_validator.py lines 31-257).  The `project_root=None`
default (resolved to the current directory by the source) is modelled by the
caller passing the resolved root.  A pydantic ValidationError raised by a
model constructor propagates as `Except.error`. -/
def validate_python_environment (w : World) (project_root : String) :
    Except String ValidationResult :=
  match find_system_python w with
  | none =>
    .ok { status := .ERROR, python_environment := none, uv_configuration := none,
          errors := ["Python 3.13 not found on system",
            "Searched locations: /usr/bin/python3.13, /usr/local/bin/python3.13, /opt/homebrew/bin/python3.13"],
          warnings := [], checks_performed := ["Searched for system Python 3.13"] }
  | some python_path =>
    if !is_python_313 w python_path then
      .ok { status := .ERROR, python_environment := none, uv_configuration := none,
            errors := ["Python at " ++ python_path ++ " is version " ++
                       (match get_python_version w python_path with
                        | some v => showVerTuple v
                        | none => "unknown") ++ ", not 3.13.x as required"],
            warnings := [], checks_performed := ["Searched for system Python 3.13"] }
    else
      match get_python_version w python_path with
      | none =>
        .ok { status := .ERROR, python_environment := none, uv_configuration := none,
              errors := ["Could not determine version for Python at " ++ python_path],
              warnings := [],
              checks_performed := ["Searched for system Python 3.13", "Python 3.13 detected"] }
      | some version =>
        match get_venv_base_python w with
        | some b =>
          if !is_python_313 w b then
            match mkPythonEnvironment w python_path version
                (get_installation_source python_path) (detect_distribution w) false
                true (some b) with
            | .error e => .error e
            | .ok env =>
              .ok { status := .FAIL, python_environment := some env,
                    uv_configuration := none,
                    errors := ["Virtual environment uses Python " ++
                               (match get_python_version w b with
                                | some v => showVerTuple v
                                | none => "unknown") ++
                               ", not system Python 3.13 (base: " ++ b ++ ")"],
                    warnings := [],
                    checks_performed := ["Searched for system Python 3.13",
                                         "Python 3.13 detected",
                                         "Checked for virtual environment"] }
          else
            validateFromEnv w project_root python_path version
              (get_installation_source python_path) (detect_distribution w) true (some b)
              ["Searched for system Python 3.13", "Python 3.13 detected",
               "Checked for virtual environment",
               "Virtual environment based on system Python 3.13 (valid)"] []
        | none =>
          validateFromEnv w project_root python_path version
            (get_installation_source python_path) (detect_distribution w) false none
            ["Searched for system Python 3.13", "Python 3.13 detected",
             "Checked for virtual environment"] []

/-- Qualification test of one locator candidate, exactly the condition under
which the `find_system_python` loop returns it: the path exists, is a regular
file, and `is_python_313` holds for it. -/
def locator_qualifies (w : World) (p : String) : Bool :=
  w.pathExists p && w.pathIsFile p && is_python_313 w p

/-- Boolean test: nonempty list of ASCII digits. -/
def allDigitsNE (l : List Char) : Bool :=
  !l.isEmpty && l.all Char.isDigit

/-- Boolean test: no whitespace character occurs. -/
def noWsB (l : List Char) : Bool :=
  l.all (fun ch => !ch.isWhitespace)

/-- Boolean test: the character `c` does not occur. -/
def noCharB (c : Char) (l : List Char) : Bool :=
  l.all (fun ch => ch ≠ c)

/-- Boolean test: the list is empty or does not start with a digit. -/
def headNotDigit (l : List Char) : Bool :=
  match l with
  | [] => true
  | h :: _ => !h.isDigit

/-- World of the missing-configuration scenario: the governed runtime is
present at the first search path and reports 3.13.0, the process is not in a
virtual environment, the UV tool is on PATH, and the project root `/proj`
holds neither a `uv.toml` nor a `pyproject.toml`. -/
def wC1 : World :=
  { pathExists := fun p => p = "/usr/bin/python3.13",
    pathIsFile := fun p => p = "/usr/bin/python3.13",
    readFile := fun _ => none,
    runVersion := fun p => if p = "/usr/bin/python3.13" then some ("Python 3.13.0", "") else none,
    uvOnPath := true,
    platformSystem := "Linux", platformMachine := "x86_64",
    sysPrefixPath := "/usr", sysBasePrefixPath := "/usr", sysHasRealPrefixFlag := false }

/-- World of the wrong-versioned virtual-environment-base scenario: the
system runtime at `/usr/bin/python3.13` reports 3.13.0, the process runs in a
virtual environment at `/venv` whose `pyvenv.cfg` points `home` at
`/pybase/bin`, and the base interpreter `/pybase/bin/python3.13` reports
3.12.4. -/
def wVF : World :=
  { pathExists := fun p =>
      p = "/usr/bin/python3.13" || p = "/venv/pyvenv.cfg" || p = "/pybase/bin/python3.13",
    pathIsFile := fun p => p = "/usr/bin/python3.13" || p = "/pybase/bin/python3.13",
    readFile := fun p =>
      if p = "/venv/pyvenv.cfg" then some "home = /pybase/bin\nversion = 3.12.4\n" else none,
    runVersion := fun p =>
      if p = "/usr/bin/python3.13" then some ("Python 3.13.0", "")
      else if p = "/pybase/bin/python3.13" then some ("Python 3.12.4", "")
      else none,
    uvOnPath := true,
    platformSystem := "Linux", platformMachine := "x86_64",
    sysPrefixPath := "/venv", sysBasePrefixPath := "/pybase", sysHasRealPrefixFlag := false }

/-- World of the fully compliant scenario: runtime 3.13.0 at the first search
path, no virtual environment, UV installed, a compliant `uv.toml` and a
`.python-version` pin at `/proj`. -/
def wPass : World :=
  { pathExists := fun p =>
      p = "/usr/bin/python3.13" || p = "/proj/uv.toml" || p = "/proj/.python-version",
    pathIsFile := fun p =>
      p = "/usr/bin/python3.13" || p = "/proj/uv.toml" || p = "/proj/.python-version",
    readFile := fun p =>
      if p = "/proj/uv.toml" then
        some "python-downloads = \"never\"\npython-preference = \"only-system\"\n"
      else if p = "/proj/.python-version" then some "3.13\n"
      else none,
    runVersion := fun p => if p = "/usr/bin/python3.13" then some ("Python 3.13.0", "") else none,
    uvOnPath := true,
    platformSystem := "Linux", platformMachine := "x86_64",
    sysPrefixPath := "/usr", sysBasePrefixPath := "/usr", sysHasRealPrefixFlag := false }

/-- World of the noncompliant-configuration scenario: like `wPass` but the
`uv.toml` allows automatic downloads and there is no version pin. -/
def wFailCfg : World :=
  { pathExists := fun p => p = "/usr/bin/python3.13" || p = "/proj/uv.toml",
    pathIsFile := fun p => p = "/usr/bin/python3.13" || p = "/proj/uv.toml",
    readFile := fun p =>
      if p = "/proj/uv.toml" then
        some "python-downloads = \"automatic\"\npython-preference = \"only-system\"\n"
      else none,
    runVersion := fun p => if p = "/usr/bin/python3.13" then some ("Python 3.13.0", "") else none,
    uvOnPath := true,
    platformSystem := "Linux", platformMachine := "x86_64",
    sysPrefixPath := "/usr", sysBasePrefixPath := "/usr", sysHasRealPrefixFlag := false }

/-- World of the runtime-absent scenario: an empty filesystem, no UV. -/
def wNF : World :=
  { pathExists := fun _ => false, pathIsFile := fun _ => false,
    readFile := fun _ => none, runVersion := fun _ => none, uvOnPath := false,
    platformSystem := "Linux", platformMachine := "x86_64",
    sysPrefixPath := "/usr", sysBasePrefixPath := "/usr", sysHasRealPrefixFlag := false }

/-- World in which only the second priority path holds a qualifying runtime. -/
def w5 : World :=
  { pathExists := fun p => p = "/usr/local/bin/python3.13",
    pathIsFile := fun p => p = "/usr/local/bin/python3.13",
    readFile := fun _ => none,
    runVersion := fun p =>
      if p = "/usr/local/bin/python3.13" then some ("Python 3.13.2", "") else none,
    uvOnPath := false,
    platformSystem := "Linux", platformMachine := "x86_64",
    sysPrefixPath := "/usr", sysBasePrefixPath := "/usr", sysHasRealPrefixFlag := false }

/-- The verdict of the `wVF` run (a FAIL caused by the venv base version). -/
def rVF : ValidationResult :=
  match validate_python_environment wVF "/proj" with
  | .ok r => r
  | .error _ => default

/-- The runtime environment carried by `rVF`. -/
def envVF : PythonEnvironment :=
  match rVF.python_environment with
  | some e => e
  | none => default

/-- The verdict of the `wPass` run (a PASS). -/
def rPass : ValidationResult :=
  match validate_python_environment wPass "/proj" with
  | .ok r => r
  | .error _ => default

/-- The verdict of the `wFailCfg` run (a FAIL with two violations). -/
def rFC : ValidationResult :=
  match validate_python_environment wFailCfg "/proj" with
  | .ok r => r
  | .error _ => default

/-- The configuration object carried by `rFC`. -/
def cfgFC : UVConfiguration :=
  match rFC.uv_configuration with
  | some c => c
  | none => default

/-- The summary rendering of `rFC`. -/
def sFC : String :=
  match rFC.to_summary with
  | .ok s => s
  | .error _ => ""

/-- The verdict of the `wNF` run (an ERROR). -/
def rNF : ValidationResult :=
  match validate_python_environment wNF "/proj" with
  | .ok r => r
  | .error _ => default

/-- A deliberately noncompliant configuration record whose two policy
settings are nevertheless compliant: download policy `never`, preference
`only-system`, but no `.python-version` pin. -/
def cfgNoPin : UVConfiguration :=
  ⟨"/proj/uv.toml", some .never, some .only_system, none, false, []⟩


theorem data_append (a b : String) : (a ++ b).data = a.data ++ b.data := by
  cases a; cases b; rfl

theorem startsWithL_refl_append (p t : List Char) : startsWithL (p ++ t) p = true := by
  induction p with
  | nil => simp [startsWithL]
  | cons c cs ih => simp [startsWithL, ih]

theorem listContains_of_parts (x v y : List Char) :
    listContains (x ++ (v ++ y)) v = true := by
  induction x with
  | nil =>
    rw [listContains.eq_def]
    simp [startsWithL_refl_append]
  | cons c cs ih =>
    rw [listContains.eq_def]
    by_cases hsw : startsWithL (c :: cs ++ (v ++ y)) v = true
    · simp [hsw]
      exact Or.inr ih
    · simp only [hsw, if_false]
      exact ih

theorem splitPred_ne_nil (p : Char → Bool) (l : List Char) : splitPred p l ≠ [] := by
  cases l with
  | nil => simp [splitPred]
  | cons c cs =>
    rw [splitPred]
    split
    · simp
    · split <;> simp

theorem splitPred_headI (p : Char → Bool) (l : List Char) :
    (splitPred p l).headI = l.takeWhile (fun c => !p c) := by
  induction l with
  | nil => rfl
  | cons c cs ih =>
    rw [splitPred]
    by_cases hc : p c
    · simp [hc, List.takeWhile_cons]
    · simp only [hc, if_false, List.takeWhile_cons]
      rcases hsp : splitPred p cs with _ | ⟨t, ts⟩
      · exact absurd hsp (splitPred_ne_nil p cs)
      · simp [hsp] at ih
        simp [eq_false_of_ne_true hc, ih]

theorem splitPred_append_nosep (p : Char → Bool) (x y : List Char)
    (hx : ∀ ch ∈ x, p ch = false) :
    splitPred p (x ++ y) = (x ++ (splitPred p y).headI) :: (splitPred p y).tail := by
  induction x with
  | nil =>
    rcases hsp : splitPred p y with _ | ⟨t, ts⟩
    · exact absurd hsp (splitPred_ne_nil p y)
    · simp [hsp]
  | cons c cs ih =>
    have hc : p c = false := hx c (by simp)
    have ih2 := ih (fun ch hch => hx ch (by simp [hch]))
    rw [List.cons_append, splitPred, ih2]
    simp [hc]

theorem splitPred_append_sep (p : Char → Bool) (x : List Char) (c : Char) (y : List Char)
    (hx : ∀ ch ∈ x, p ch = false) (hc : p c = true) :
    splitPred p (x ++ c :: y) = x :: splitPred p y := by
  induction x with
  | nil => simp [splitPred, hc]
  | cons a as ih =>
    have ha : p a = false := hx a (by simp)
    have ih2 := ih (fun ch hch => hx ch (by simp [hch]))
    rw [List.cons_append, splitPred, ih2]
    simp [ha]

theorem ws_not_digit (ch : Char) (h : ch.isWhitespace = true) : ch.isDigit = false := by
  simp [Char.isWhitespace] at h
  rcases h with ((h | h) | h) | h <;> subst h <;> decide

theorem digit_not_ws (ch : Char) (h : ch.isDigit = true) : ch.isWhitespace = false := by
  cases hws : ch.isWhitespace with
  | false => rfl
  | true => rw [ws_not_digit ch hws] at h; exact absurd h (by simp)

theorem digit_ne_of (ch c : Char) (h : ch.isDigit = true) (hc : c.isDigit = false) :
    ch ≠ c := by
  intro he
  rw [he, hc] at h
  exact absurd h (by simp)

theorem dropWhile_eq_self_of (p : Char → Bool) (l : List Char)
    (h : ∀ ch ∈ l, p ch = false) : l.dropWhile p = l := by
  cases l with
  | nil => rfl
  | cons c cs => simp [List.dropWhile_cons, h c (by simp)]

theorem trimWsL_eq_self (l : List Char) (h : ∀ ch ∈ l, ch.isWhitespace = false) :
    trimWsL l = l := by
  unfold trimWsL stripPredL
  rw [dropWhile_eq_self_of _ l h,
      dropWhile_eq_self_of _ l.reverse (fun ch hch => h ch (List.mem_reverse.mp hch)),
      List.reverse_reverse]

theorem pyIntL_digits (l : List Char) (h : allDigitsNE l = true) :
    pyIntL l = some ((natOfDigits l : Int)) := by
  have hne : l ≠ [] := by
    simp [allDigitsNE] at h
    intro he
    subst he
    simp at h
  have hdig : ∀ ch ∈ l, ch.isDigit = true := by
    simp [allDigitsNE, List.all_eq_true] at h
    exact h.2
  have htrim : trimWsL l = l :=
    trimWsL_eq_self l (fun ch hch => digit_not_ws ch (hdig ch hch))
  unfold pyIntL
  rw [htrim]
  cases l with
  | nil => exact absurd rfl hne
  | cons c cs =>
    have hcdig := hdig c (by simp)
    have hne1 : c ≠ Char.ofNat 45 := digit_ne_of c _ hcdig (by decide)
    have hne2 : c ≠ Char.ofNat 43 := digit_ne_of c _ hcdig (by decide)
    have hh1 : ((c :: cs).head? = some (Char.ofNat 45)) = False := by
      simp [List.head?]
      intro he
      exact absurd he hne1
    have hh2 : ((c :: cs).head? = some (Char.ofNat 43)) = False := by
      simp [List.head?]
      intro he
      exact absurd he hne2
    simp only [hh1, hh2, if_false]
    unfold digitsToNat?
    have hcond : c :: cs ≠ [] ∧ (c :: cs).all Char.isDigit = true :=
      ⟨hne, List.all_eq_true.mpr hdig⟩
    rw [if_pos hcond]
    rfl

theorem takeWhile_digits_append (c t : List Char)
    (hc : ∀ ch ∈ c, ch.isDigit = true) (ht : headNotDigit t = true) :
    (c ++ t).takeWhile Char.isDigit = c := by
  induction c with
  | nil =>
    cases t with
    | nil => rfl
    | cons h2 t2 =>
      simp [headNotDigit] at ht
      simp [List.takeWhile_cons, ht]
  | cons a as ih =>
    simp [List.takeWhile_cons, hc a (by simp), ih (fun ch hch => hc ch (by simp [hch]))]

theorem mem_pyJoin_parts (sep : String) (l : List String) (v : String) (hv : v ∈ l) :
    ∃ x y, (pyJoin sep l).data = x ++ (v.data ++ y) := by
  induction l with
  | nil => exact absurd hv (by simp)
  | cons a as ih =>
    cases as with
    | nil =>
      simp at hv
      subst hv
      exact ⟨[], [], by simp [pyJoin]⟩
    | cons b bs =>
      rcases List.mem_cons.mp hv with he | hm
      · subst he
        refine ⟨[], sep.data ++ (pyJoin sep (b :: bs)).data, ?_⟩
        simp [pyJoin, data_append]
      · rcases ih hm with ⟨x, y, hxy⟩
        refine ⟨a.data ++ sep.data ++ x, y, ?_⟩
        simp [pyJoin, data_append, hxy]

theorem findFirstPython_cons (w : World) (p : String) (rest : List String) :
    findFirstPython w (p :: rest) =
      if locator_qualifies w p then some p else findFirstPython w rest := by
  rw [findFirstPython, locator_qualifies]
  by_cases h1 : w.pathExists p && w.pathIsFile p
  · by_cases h2 : is_python_313 w p
    · simp [h1, h2]
    · simp [h1, h2]
  · simp [h1]

theorem findFirstPython_some (w : World) (l : List String) (p : String)
    (h : findFirstPython w l = some p) :
    p ∈ l ∧ locator_qualifies w p = true := by
  induction l with
  | nil => exact absurd h (by simp [findFirstPython])
  | cons a as ih =>
    rw [findFirstPython_cons] at h
    by_cases hq : locator_qualifies w a
    · rw [if_pos hq] at h
      rcases Option.some.injEq .. ▸ h with he
      simp at he
      subst he
      exact ⟨by simp, hq⟩
    · rw [if_neg hq] at h
      rcases ih h with ⟨hm, hq2⟩
      exact ⟨by simp [hm], hq2⟩

theorem splitPred_nosep (p : Char → Bool) (x : List Char)
    (hx : ∀ ch ∈ x, p ch = false) : splitPred p x = [x] := by
  have := splitPred_append_nosep p x [] hx
  simpa [splitPred] using this


theorem mkPythonEnvironment_ok (w : World) (p : String) (v : Int × Int × Int)
    (s : PySource) (d : String) (valid iv : Bool) (vb : Option String)
    (env : PythonEnvironment)
    (h : mkPythonEnvironment w p v s d valid iv vb = .ok env) :
    env = ⟨p, v, s, d, valid, iv, vb⟩ ∧ w.pathExists p = true ∧ w.pathIsFile p = true ∧
    v.1 = 3 ∧ v.2.1 = 13 := by
  unfold mkPythonEnvironment at h
  split_ifs at h with h1 h2 h3
  injection h with he
  simp at h1 h2 h3
  exact ⟨he.symm, h1, h2, h3.1, h3.2⟩

theorem mkUVConfiguration_ok (w : World) (path : String)
    (pd pp pin : Option String) (comp : Bool) (viol : List String)
    (cfg : UVConfiguration)
    (h : mkUVConfiguration w path pd pp pin comp viol = .ok cfg) :
    cfg.config_file_path = path ∧ cfg.python_version_pinned = pin ∧
    cfg.is_compliant = comp ∧ cfg.compliance_violations = viol ∧
    w.pathExists path = true := by
  unfold mkUVConfiguration at h
  split_ifs at h with h1
  simp at h1
  cases hd : parsePyDownloads pd with
  | error e => rw [hd] at h; exact absurd h (by simp)
  | ok pdv =>
    cases hp : parsePyPreference pp with
    | error e => rw [hd, hp] at h; exact absurd h (by simp)
    | ok ppv =>
      rw [hd, hp] at h
      injection h with he
      subst he
      exact ⟨rfl, rfl, rfl, rfl, h1⟩

theorem check_compliance_is_compliant (c : UVConfiguration) :
    (c.check_compliance).is_compliant =
      (c.prevents_python_downloads && c.uses_only_system_python &&
       c.has_python_version_pin) := by
  unfold UVConfiguration.check_compliance
  by_cases h1 : c.prevents_python_downloads <;>
    by_cases h2 : c.uses_only_system_python <;>
    by_cases h3 : c.has_python_version_pin <;>
    simp [h1, h2, h3]

theorem check_compliance_violations_length (c : UVConfiguration) :
    (c.check_compliance).compliance_violations.length =
      (if c.prevents_python_downloads then 0 else 1) +
      (if c.uses_only_system_python then 0 else 1) +
      (if c.has_python_version_pin then 0 else 1) := by
  unfold UVConfiguration.check_compliance
  by_cases h1 : c.prevents_python_downloads <;>
    by_cases h2 : c.uses_only_system_python <;>
    by_cases h3 : c.has_python_version_pin <;>
    simp [h1, h2, h3]

theorem finalizeResult_fields (env : PythonEnvironment) (cfg : UVConfiguration)
    (warns checks : List String) (iv : Bool) :
    (finalizeResult env cfg warns checks iv).python_environment = some env ∧
    (finalizeResult env cfg warns checks iv).uv_configuration = some cfg ∧
    (finalizeResult env cfg warns checks iv).errors = [] ∧
    ((finalizeResult env cfg warns checks iv).status = .PASS ↔ cfg.is_compliant = true) ∧
    (finalizeResult env cfg warns checks iv).status ≠ .ERROR := by
  unfold finalizeResult
  by_cases h : cfg.is_compliant <;> simp [h]

theorem validateFromEnv_ok (w : World) (root p : String) (v : Int × Int × Int)
    (s : PySource) (d : String) (iv : Bool) (vb : Option String)
    (checks warns : List String) (r : ValidationResult)
    (h : validateFromEnv w root p v s d iv vb checks warns = .ok r) :
    r.python_environment = some ⟨p, v, s, d, true, iv, vb⟩ ∧ v.1 = 3 ∧ v.2.1 = 13 ∧
    (r.status = .ERROR → r.errors = ["UV package manager not found in PATH"]) ∧
    (r.status = .PASS → r.errors = [] ∧
      r.uv_configuration.map (fun c => c.is_compliant) = some true) ∧
    ¬(r.status = .FAIL ∧ r.uv_configuration = none) := by
  unfold validateFromEnv at h
  split at h
  · exact absurd h (by simp)
  · rename_i env hme
    obtain ⟨henv, -, -, hv3, hv13⟩ := mkPythonEnvironment_ok w p v s d true iv vb env hme
    subst henv
    split_ifs at h with huv
    · injection h with he
      subst he
      refine ⟨rfl, hv3, hv13, fun _ => rfl, fun hp => ?_, fun hf => ?_⟩
      · exact absurd hp (by simp)
      · exact absurd hf.1 (by simp)
    · split at h
      · split at h
        · exact absurd h (by simp)
        · rename_i cfg hmu
          injection h with he
          subst he
          obtain ⟨hf1, hf2, hf3, hf4, hf5⟩ := finalizeResult_fields _ cfg _ _ iv
          refine ⟨hf1, hv3, hv13, fun hE => absurd hE hf5, fun hP => ⟨hf3, ?_⟩,
                  fun hf => ?_⟩
          · rw [hf2]
            simp [hf4.mp hP]
          · rw [hf2] at hf
            exact absurd hf.2 (by simp)
      · split at h
        · exact absurd h (by simp)
        · rename_i cfg0 hmu
          injection h with he
          subst he
          obtain ⟨hf1, hf2, hf3, hf4, hf5⟩ :=
            finalizeResult_fields _ cfg0.check_compliance _ _ iv
          refine ⟨hf1, hv3, hv13, fun hE => absurd hE hf5, fun hP => ⟨hf3, ?_⟩,
                  fun hf => ?_⟩
          · rw [hf2]
            simp [hf4.mp hP]
          · rw [hf2] at hf
            exact absurd hf.2 (by simp)


/-- C4: every PASS verdict of the engine has an empty errors list, a
compliant configuration object, a runtime environment whose validity flag is
true, and — when a virtual-environment base interpreter exists — that base
passes the governed-version check `is_python_313`. -/
theorem c4_pass_invariant (w : World) (root : String) (r : ValidationResult)
    (hok : validate_python_environment w root = .ok r) (hst : r.status = .PASS) :
    r.errors = [] ∧
    r.uv_configuration.map (fun c => c.is_compliant) = some true ∧
    r.python_environment.map (fun e => e.is_valid) = some true ∧
    ((r.python_environment.bind (fun e => e.venv_base_python)).map
      (fun b => is_python_313 w b)).getD true = true := by
  unfold validate_python_environment at hok
  split at hok
  · injection hok with he
    subst he
    exact absurd hst (by simp)
  · rename_i python_path hfind
    split_ifs at hok with h313
    · injection hok with he
      subst he
      exact absurd hst (by simp)
    · split at hok
      · injection hok with he
        subst he
        exact absurd hst (by simp)
      · rename_i version hver
        split at hok
        · rename_i b hvb
          split_ifs at hok with hb313
          · split at hok
            · exact absurd hok (by simp)
            · injection hok with he
              subst he
              exact absurd hst (by simp)
          · obtain ⟨he1, -, -, -, hPass, -⟩ :=
              validateFromEnv_ok w root python_path version _ _ true (some b) _ _ r hok
            obtain ⟨herr, hmap⟩ := hPass hst
            simp at hb313
            refine ⟨herr, hmap, by simp [he1], by simp [he1, hb313]⟩
        · obtain ⟨he1, -, -, -, hPass, -⟩ :=
            validateFromEnv_ok w root python_path version _ _ false none _ _ r hok
          obtain ⟨herr, hmap⟩ := hPass hst
          refine ⟨herr, hmap, by simp [he1], by simp [he1]⟩

/-- C3 (amended): every runtime-environment object carried by a verdict of
the engine has version major/minor exactly (3, 13); its validity flag,
however, is not derived from the version — it is false exactly on the FAIL
verdict produced when the virtual-environment base interpreter fails the
governed-version check (recognizable as the FAIL verdict carrying no
configuration object), and true on every other verdict. -/
theorem c3_validity_flag (w : World) (root : String) (r : ValidationResult)
    (env : PythonEnvironment) (hok : validate_python_environment w root = .ok r)
    (henv : r.python_environment = some env) :
    (env.version.1 = 3 ∧ env.version.2.1 = 13) ∧
    (env.is_valid = true ↔ ¬(r.status = .FAIL ∧ r.uv_configuration = none)) := by
  unfold validate_python_environment at hok
  split at hok
  · injection hok with he
    subst he
    exact absurd henv (by simp)
  · rename_i python_path hfind
    split_ifs at hok with h313
    · injection hok with he
      subst he
      exact absurd henv (by simp)
    · split at hok
      · injection hok with he
        subst he
        exact absurd henv (by simp)
      · rename_i version hver
        split at hok
        · rename_i b hvb
          split_ifs at hok with hb313
          · split at hok
            · exact absurd hok (by simp)
            · rename_i env0 hme
              injection hok with he
              subst he
              simp at henv
              obtain ⟨henv0, -, -, hv3, hv13⟩ :=
                mkPythonEnvironment_ok _ _ _ _ _ _ _ _ _ hme
              subst henv
              subst henv0
              simp [hv3, hv13]
          · obtain ⟨he1, hv3, hv13, -, -, hnf⟩ :=
              validateFromEnv_ok w root python_path version _ _ true (some b) _ _ r hok
            rw [he1] at henv
            simp at henv
            subst henv
            simp [hv3, hv13, hnf]
        · obtain ⟨he1, hv3, hv13, -, -, hnf⟩ :=
            validateFromEnv_ok w root python_path version _ _ false none _ _ r hok
          rw [he1] at henv
          simp at henv
          subst henv
          simp [hv3, hv13, hnf]

/-- C9: the locator only returns paths already satisfying the
governed-version check, so (the probe being a deterministic function of the
path in this model) the engine's "wrong version detected" ERROR branch is
unreachable: no ERROR verdict carries an error message mentioning
"not 3.13.x as required". -/
theorem c9_wrong_version_error_unreachable :
    (∀ (w : World) (p : String), find_system_python w = some p →
      is_python_313 w p = true) ∧
    (∀ (w : World) (root : String) (r : ValidationResult),
      validate_python_environment w root = .ok r → r.status = .ERROR →
      ∀ e ∈ r.errors, strContains e "not 3.13.x as required" = false) := by
  constructor
  · intro w p h
    have hq := (findFirstPython_some w _ p h).2
    simp [locator_qualifies] at hq
    exact hq.2
  · intro w root r hok hst e he
    unfold validate_python_environment at hok
    split at hok
    · injection hok with h2
      subst h2
      simp at he
      rcases he with he | he <;> subst he <;> decide
    · rename_i python_path hfind
      split_ifs at hok with h313
      · have hq := (findFirstPython_some w _ python_path hfind).2
        simp [locator_qualifies] at hq
        simp [hq.2] at h313
      · split at hok
        · rename_i hver
          simp at h313
          unfold is_python_313 at h313
          rw [hver] at h313
          exact absurd h313 (by simp)
        · rename_i version hver
          split at hok
          · rename_i b hvb
            split_ifs at hok with hb313
            · split at hok
              · exact absurd hok (by simp)
              · injection hok with h2
                subst h2
                exact absurd hst (by simp)
            · obtain ⟨-, -, -, hErr, -, -⟩ :=
                validateFromEnv_ok w root python_path version _ _ true (some b) _ _ r hok
              rw [hErr hst] at he
              simp at he
              subst he
              decide
          · obtain ⟨-, -, -, hErr, -, -⟩ :=
              validateFromEnv_ok w root python_path version _ _ false none _ _ r hok
            rw [hErr hst] at he
            simp at he
            subst he
            decide

/-- C6 (amended): for every FAIL verdict, the summary rendering contains the
text of every violation recorded in the configuration object it carries.
(The FAIL verdict produced by the venv-base check carries no configuration
object; its diagnostic lives in `errors`, which the FAIL summary does not
render — see the counterexample.) -/
theorem c6_fail_summary (r : ValidationResult) (s : String) (cfg : UVConfiguration)
    (v : String) (hst : r.status = .FAIL) (hsum : r.to_summary = .ok s)
    (hcfg : r.uv_configuration = some cfg) (hv : v ∈ cfg.compliance_violations) :
    strContains s v = true := by
  unfold ValidationResult.to_summary at hsum
  rw [hst, hcfg] at hsum
  injection hsum with he
  subst he
  unfold strContains
  rw [data_append]
  obtain ⟨x, y, hxy⟩ := mem_pyJoin_parts "\n  " cfg.compliance_violations v hv
  rw [hxy, ← List.append_assoc]
  exact listContains_of_parts _ v.data y


theorem allDigitsNE_ne_nil (l : List Char) (h : allDigitsNE l = true) : l ≠ [] := by
  simp [allDigitsNE] at h
  intro he
  subst he
  simp at h

theorem allDigitsNE_digits (l : List Char) (h : allDigitsNE l = true) :
    ∀ ch ∈ l, ch.isDigit = true := by
  simp [allDigitsNE, List.all_eq_true] at h
  exact h.2

theorem noWsB_spec (l : List Char) (h : noWsB l = true) :
    ∀ ch ∈ l, ch.isWhitespace = false := by
  simp [noWsB, List.all_eq_true] at h
  exact h

theorem digits_ws_false (l : List Char) (h : ∀ ch ∈ l, ch.isDigit = true) :
    ∀ ch ∈ l, ch.isWhitespace = false :=
  fun ch hch => digit_not_ws ch (h ch hch)

theorem digits_dot_false (l : List Char) (h : ∀ ch ∈ l, ch.isDigit = true) :
    ∀ ch ∈ l, decide (ch = '.') = false := by
  intro ch hch
  simp
  exact digit_ne_of ch _ (h ch hch) (by decide)

theorem headNotDigit_headI (s : List Char) (h : headNotDigit s = true) :
    headNotDigit ((splitPred (fun c => decide (c = '.')) s).headI) = true := by
  rw [splitPred_headI]
  cases s with
  | nil => rfl
  | cons h0 t0 =>
    simp only [headNotDigit] at h
    rw [List.takeWhile_cons]
    by_cases hd : h0 = '.'
    · simp [hd, headNotDigit]
    · simp [hd, headNotDigit, h]

theorem wsSplit_python (r : List Char) (hr : r ≠ [])
    (hnw : ∀ ch ∈ r, ch.isWhitespace = false) :
    wsSplit ("Python ".data ++ r) = ["Python".data, r] := by
  have h1 : "Python ".data ++ r = "Python".data ++ ' ' :: r := by rfl
  rw [wsSplit, h1, splitPred_append_sep _ _ _ _ (by decide) (by decide),
      splitPred_nosep _ r hnw]
  have hre : r.isEmpty = false := by
    cases r with
    | nil => exact absurd rfl hr
    | cons a as => rfl
  simp [List.filter, hre]

theorem dotSplit_three (a b c s : List Char)
    (ha : ∀ ch ∈ a, decide (ch = '.') = false)
    (hb : ∀ ch ∈ b, decide (ch = '.') = false)
    (hc : ∀ ch ∈ c, decide (ch = '.') = false) :
    splitOnCharL '.' (a ++ '.' :: (b ++ '.' :: (c ++ s))) =
      a :: b :: (c ++ (splitPred (fun ch => decide (ch = '.')) s).headI) ::
        (splitPred (fun ch => decide (ch = '.')) s).tail := by
  rw [splitOnCharL, splitPred_append_sep _ _ _ _ ha (by decide),
      splitPred_append_sep _ _ _ _ hb (by decide),
      splitPred_append_nosep _ _ _ hc]


theorem parse_positive (a b c s : String)
    (ha : allDigitsNE a.data = true) (hb : allDigitsNE b.data = true)
    (hc : allDigitsNE c.data = true) (hs : noWsB s.data = true)
    (hsd : headNotDigit s.data = true) :
    parseVersionOutput ("Python " ++ a ++ "." ++ b ++ "." ++ c ++ s) =
      some ((natOfDigits a.data : Int), (natOfDigits b.data : Int),
            (natOfDigits c.data : Int)) := by
  have hda := allDigitsNE_digits _ ha
  have hdb := allDigitsNE_digits _ hb
  have hdc := allDigitsNE_digits _ hc
  have h1 : ("Python " ++ a ++ "." ++ b ++ "." ++ c ++ s).data =
      "Python ".data ++ (a.data ++ '.' :: (b.data ++ '.' :: (c.data ++ s.data))) := by
    simp [data_append]
  have hrnw : ∀ ch ∈ a.data ++ '.' :: (b.data ++ '.' :: (c.data ++ s.data)),
      ch.isWhitespace = false := by
    intro ch hch
    simp at hch
    rcases hch with h | h | h | h | h | h
    · exact digit_not_ws ch (hda ch h)
    · subst h; decide
    · exact digit_not_ws ch (hdb ch h)
    · subst h; decide
    · exact digit_not_ws ch (hdc ch h)
    · exact noWsB_spec _ hs ch h
  have hrne : a.data ++ '.' :: (b.data ++ '.' :: (c.data ++ s.data)) ≠ [] := by
    cases hx : a.data with
    | nil => exact absurd hx (allDigitsNE_ne_nil _ ha)
    | cons y ys => simp [hx]
  have h2 := wsSplit_python _ hrne hrnw
  have h3 := dotSplit_three a.data b.data c.data s.data
    (digits_dot_false _ hda) (digits_dot_false _ hdb) (digits_dot_false _ hdc)
  have h4 : (c.data ++ (splitPred (fun ch => decide (ch = '.')) s.data).headI).takeWhile
      Char.isDigit = c.data :=
    takeWhile_digits_append _ _ hdc (headNotDigit_headI _ hsd)
  have h5 := pyIntL_digits _ ha
  have h6 := pyIntL_digits _ hb
  have hcne : c.data ≠ [] := allDigitsNE_ne_nil _ hc
  rw [parseVersionOutput, h1, parseVersionOutputL]
  rw [if_neg (by simp [hrne]), if_pos (startsWithL_refl_append _ _), h2]
  simp only []
  rw [h3]
  simp only [h4, h5, h6]
  simp [hcne]


theorem takeWhile_headNotDigit (t : List Char) (ht : headNotDigit t = true) :
    t.takeWhile Char.isDigit = [] := by
  have := takeWhile_digits_append [] t (by simp) ht
  simpa using this

theorem parse_two_components (a b : String)
    (ha : allDigitsNE a.data = true) (hbw : noWsB b.data = true)
    (hbd : noCharB '.' b.data = true) :
    parseVersionOutput ("Python " ++ a ++ "." ++ b) = none := by
  have hda := allDigitsNE_digits _ ha
  have hbdot : ∀ ch ∈ b.data, decide (ch = '.') = false := by
    intro ch hch
    simp [noCharB, List.all_eq_true] at hbd
    simp
    exact hbd ch hch
  have h1 : ("Python " ++ a ++ "." ++ b).data =
      "Python ".data ++ (a.data ++ '.' :: b.data) := by
    simp [data_append]
  have hrnw : ∀ ch ∈ a.data ++ '.' :: b.data, ch.isWhitespace = false := by
    intro ch hch
    simp at hch
    rcases hch with h | h | h
    · exact digit_not_ws ch (hda ch h)
    · subst h; decide
    · exact noWsB_spec _ hbw ch h
  have hrne : a.data ++ '.' :: b.data ≠ [] := by
    cases hx : a.data with
    | nil => exact absurd hx (allDigitsNE_ne_nil _ ha)
    | cons y ys => simp [hx]
  have h2 := wsSplit_python _ hrne hrnw
  have h3 : splitOnCharL '.' (a.data ++ '.' :: b.data) = [a.data, b.data] := by
    rw [splitOnCharL, splitPred_append_sep _ _ _ _ (digits_dot_false _ hda) (by decide),
        splitPred_nosep _ _ hbdot]
  rw [parseVersionOutput, h1, parseVersionOutputL]
  rw [if_neg (by simp [hrne]), if_pos (startsWithL_refl_append _ _), h2]
  simp only []
  rw [h3]

theorem parse_no_leading_digit (a b s : String)
    (ha : allDigitsNE a.data = true) (hb : allDigitsNE b.data = true)
    (hsw : noWsB s.data = true) (hsd : headNotDigit s.data = true) :
    parseVersionOutput ("Python " ++ a ++ "." ++ b ++ "." ++ s) = none := by
  have hda := allDigitsNE_digits _ ha
  have hdb := allDigitsNE_digits _ hb
  have h1 : ("Python " ++ a ++ "." ++ b ++ "." ++ s).data =
      "Python ".data ++ (a.data ++ '.' :: (b.data ++ '.' :: s.data)) := by
    simp [data_append]
  have hrnw : ∀ ch ∈ a.data ++ '.' :: (b.data ++ '.' :: s.data),
      ch.isWhitespace = false := by
    intro ch hch
    simp at hch
    rcases hch with h | h | h | h | h
    · exact digit_not_ws ch (hda ch h)
    · subst h; decide
    · exact digit_not_ws ch (hdb ch h)
    · subst h; decide
    · exact noWsB_spec _ hsw ch h
  have hrne : a.data ++ '.' :: (b.data ++ '.' :: s.data) ≠ [] := by
    cases hx : a.data with
    | nil => exact absurd hx (allDigitsNE_ne_nil _ ha)
    | cons y ys => simp [hx]
  have h2 := wsSplit_python _ hrne hrnw
  rcases hsp : splitPred (fun ch => decide (ch = '.')) s.data with _ | ⟨t, ts⟩
  · exact absurd hsp (splitPred_ne_nil _ _)
  · have h3 : splitOnCharL '.' (a.data ++ '.' :: (b.data ++ '.' :: s.data)) =
        a.data :: b.data :: t :: ts := by
      rw [splitOnCharL, splitPred_append_sep _ _ _ _ (digits_dot_false _ hda) (by decide),
          splitPred_append_sep _ _ _ _ (digits_dot_false _ hdb) (by decide), hsp]
    have hth : headNotDigit t = true := by
      have := headNotDigit_headI s.data hsd
      rw [hsp] at this
      simpa using this
    have h4 := takeWhile_headNotDigit t hth
    rw [parseVersionOutput, h1, parseVersionOutputL]
    rw [if_neg (by simp [hrne]), if_pos (startsWithL_refl_append _ _), h2]
    simp only []
    rw [h3]
    simp [h4]

/-- C7: the version-probe parser maps every stripped output of the form
`Python a.b.cSUFFIX` — `a`, `b`, `c` nonempty digit runs, the suffix
whitespace-free and not starting with a digit — to the triple of the decimal
values of `a`, `b`, `c`; parsing is a pure function, so repeated parses of
the same output agree; an output whose version token has fewer than three
dot-components, or whose third component has no leading digit, parses to
`none`. -/
theorem c7_version_parse :
    (∀ (a b c s : String),
      allDigitsNE a.data = true → allDigitsNE b.data = true →
      allDigitsNE c.data = true → noWsB s.data = true → headNotDigit s.data = true →
      parseVersionOutput ("Python " ++ a ++ "." ++ b ++ "." ++ c ++ s) =
        some ((natOfDigits a.data : Int), (natOfDigits b.data : Int),
              (natOfDigits c.data : Int))) ∧
    (∀ out : String, parseVersionOutput out = parseVersionOutput out) ∧
    (∀ (a b : String), allDigitsNE a.data = true → noWsB b.data = true →
      noCharB '.' b.data = true →
      parseVersionOutput ("Python " ++ a ++ "." ++ b) = none) ∧
    (∀ (a b s : String), allDigitsNE a.data = true → allDigitsNE b.data = true →
      noWsB s.data = true → headNotDigit s.data = true →
      parseVersionOutput ("Python " ++ a ++ "." ++ b ++ "." ++ s) = none) :=
  ⟨fun a b c s ha hb hc hs hsd => parse_positive a b c s ha hb hc hs hsd,
   fun _ => rfl,
   fun a b ha hbw hbd => parse_two_components a b ha hbw hbd,
   fun a b s ha hb hsw hsd => parse_no_leading_digit a b s ha hb hsw hsd⟩


theorem findFirstPython_eq_none_iff (w : World) (l : List String) :
    findFirstPython w l = none ↔ ∀ p ∈ l, locator_qualifies w p = false := by
  induction l with
  | nil => simp [findFirstPython]
  | cons a as ih =>
    rw [findFirstPython_cons]
    by_cases hq : locator_qualifies w a
    · simp [hq]
    · simp [hq, ih, Bool.not_eq_true] at hq ⊢

theorem findFirstPython_eq_some_iff (w : World) (l : List String) (p : String) :
    findFirstPython w l = some p ↔
      ∃ pre post, l = pre ++ p :: post ∧ locator_qualifies w p = true ∧
        ∀ q ∈ pre, locator_qualifies w q = false := by
  induction l with
  | nil =>
    simp [findFirstPython]
  | cons a as ih =>
    rw [findFirstPython_cons]
    by_cases hq : locator_qualifies w a
    · rw [if_pos hq]
      constructor
      · intro h
        injection h with he
        subst he
        exact ⟨[], as, rfl, hq, by simp⟩
      · rintro ⟨pre, post, hd, hqp, hpre⟩
        cases pre with
        | nil =>
          simp at hd
          rw [hd.1]
        | cons x xs =>
          simp at hd
          exact absurd (hd.1 ▸ hq) (by simp [hpre x (by simp)])
    · rw [if_neg hq, ih]
      constructor
      · rintro ⟨pre, post, hd, hqp, hpre⟩
        refine ⟨a :: pre, post, by simp [hd], hqp, ?_⟩
        intro q hqm
        rcases List.mem_cons.mp hqm with he | hm
        · subst he
          exact Bool.not_eq_true _ ▸ (by simpa using hq)
        · exact hpre q hm
      · rintro ⟨pre, post, hd, hqp, hpre⟩
        cases pre with
        | nil =>
          simp at hd
          exact absurd (hd.1 ▸ hqp) (by simpa using hq)
        | cons x xs =>
          simp at hd
          exact ⟨xs, post, hd.2, hqp, fun q hm => hpre q (by simp [hm])⟩

/-- C5: for every world, the runtime locator returns `none` exactly when no
candidate of the fixed priority list qualifies (exists, is a regular file,
and passes the governed-version check), and returns `some p` exactly when `p`
is a qualifying candidate all of whose higher-priority predecessors fail to
qualify — never a later-priority match when an earlier one qualifies. -/
theorem c5_locator_first_match (w : World) :
    (find_system_python w = none ↔
      ∀ p ∈ PYTHON_SEARCH_PATHS, locator_qualifies w p = false) ∧
    (∀ p, find_system_python w = some p ↔
      ∃ pre post, PYTHON_SEARCH_PATHS = pre ++ p :: post ∧
        locator_qualifies w p = true ∧ ∀ q ∈ pre, locator_qualifies w q = false) :=
  ⟨findFirstPython_eq_none_iff w PYTHON_SEARCH_PATHS,
   fun p => findFirstPython_eq_some_iff w PYTHON_SEARCH_PATHS p⟩


/-- C2 (amended): after `check_compliance`, the compliance flag is true iff
the download policy is `manual` or `never` AND the preference is
`only-system` AND the `.python-version` pin is present (the pin rule also
counts, contrary to the original claim); the violation-list length equals
the number of failing rules among the three. -/
theorem c2_check_compliance (c : UVConfiguration) :
    ((c.check_compliance).is_compliant = true ↔
      ((c.python_downloads = some .manual ∨ c.python_downloads = some .never) ∧
       c.python_preference = some .only_system ∧ c.python_version_pinned ≠ none)) ∧
    (c.check_compliance).compliance_violations.length =
      ((if c.prevents_python_downloads then 0 else 1) +
       (if c.uses_only_system_python then 0 else 1) +
       (if c.has_python_version_pin then 0 else 1)) := by
  constructor
  · rw [check_compliance_is_compliant]
    simp [UVConfiguration.prevents_python_downloads,
          UVConfiguration.uses_only_system_python,
          UVConfiguration.has_python_version_pin, Option.isSome_iff_ne_none,
          and_assoc]
  · exact check_compliance_violations_length c

/-- C2 counterexample: a configuration with download policy `never` and
preference `only-system` but no version pin is judged noncompliant by
`check_compliance`, refuting the claim that compliance is determined by the
two settings alone. -/
theorem c2_counterexample :
    ¬(((cfgNoPin.check_compliance).is_compliant = true) ↔
      ((cfgNoPin.python_downloads = some .manual ∨
        cfgNoPin.python_downloads = some .never) ∧
       cfgNoPin.python_preference = some .only_system)) := by decide

/-- C8: the exit-code mapping of a verdict is exactly PASS to 0, FAIL to 1,
ERROR to 2. -/
theorem c8_exit_code (r : ValidationResult) :
    (r.exit_code = 0 ↔ r.status = .PASS) ∧ (r.exit_code = 1 ↔ r.status = .FAIL) ∧
    (r.exit_code = 2 ↔ r.status = .ERROR) := by
  rcases r with ⟨st, e1, e2, e3, e4, e5⟩
  cases st <;> simp [ValidationResult.exit_code]

/-- C10: the `PythonEnvironment` constructor makes a wrong-versioned runtime
unrepresentable — construction succeeds only with version major/minor
(3, 13), and raises a validation error (modelled as `Except.error`) for any
other major/minor. -/
theorem c10_wrong_version_unconstructible (w : World) (p : String)
    (v : Int × Int × Int) (s : PySource) (d : String) (valid iv : Bool)
    (vb : Option String) :
    (∀ env, mkPythonEnvironment w p v s d valid iv vb = .ok env →
       env.version = v ∧ v.1 = 3 ∧ v.2.1 = 13) ∧
    (¬(v.1 = 3 ∧ v.2.1 = 13) →
       ∀ env, mkPythonEnvironment w p v s d valid iv vb ≠ .ok env) := by
  constructor
  · intro env h
    obtain ⟨he, -, -, h3, h13⟩ := mkPythonEnvironment_ok w p v s d valid iv vb env h
    exact ⟨by rw [he], h3, h13⟩
  · intro hne env h
    obtain ⟨-, -, -, h3, h13⟩ := mkPythonEnvironment_ok w p v s d valid iv vb env h
    exact hne ⟨h3, h13⟩

/-- C1 (code bug): in a run where the runtime is found, UV is installed, and
no configuration file exists at the project root, the engine does not return
the intended FAIL verdict — building the documented stub configuration at the
expected `uv.toml` location raises `validate_config_exists` (the path does
not exist), so the pydantic ValidationError propagates out of the engine. -/
theorem c1_missing_config_raises :
    find_system_python wC1 = some "/usr/bin/python3.13" ∧
    check_uv_installed wC1 = true ∧
    get_uv_config_path wC1 "/proj" = none ∧
    validate_python_environment wC1 "/proj" =
      .error "UV config file not found: /proj/uv.toml" :=
  ⟨by rfl, rfl, by rfl, by rfl⟩

/-- C3 counterexample: the `wVF` run constructs a runtime environment whose
version is (3, 13, 0) yet whose validity flag is false, refuting "validity
iff version major/minor equals (3, 13)". -/
theorem c3_counterexample :
    (validate_python_environment wVF "/proj").toOption.bind
        (fun r => r.python_environment) =
      some ⟨"/usr/bin/python3.13", (3, 13, 0), .package_manager, "Linux", false, true,
            some "/pybase/bin/python3.13"⟩ ∧
    ¬((envVF.is_valid = true) ↔ (envVF.version.1 = 3 ∧ envVF.version.2.1 = 13)) :=
  ⟨by rfl, by decide⟩

/-- C6 counterexample: the FAIL verdict produced when the virtual-environment
base interpreter fails the governed-version check records its diagnostic in
`errors`; the summary renders neither the base path nor the detected base
version. -/
theorem c6_counterexample :
    rVF.status = .FAIL ∧
    rVF.to_summary = .ok "✗ FAIL: Constitution violations detected\n  " ∧
    strContains "✗ FAIL: Constitution violations detected\n  "
      "/pybase/bin/python3.13" = false ∧
    strContains "✗ FAIL: Constitution violations detected\n  " "3.12" = false ∧
    rVF.errors = ["Virtual environment uses Python 3.12.4, not system Python 3.13 (base: /pybase/bin/python3.13)"] :=
  ⟨by rfl, by rfl, by decide, by decide, by rfl⟩

theorem c2_witness :
    (cfgNoPin.check_compliance).compliance_violations.length =
      ((if cfgNoPin.prevents_python_downloads then 0 else 1) +
       (if cfgNoPin.uses_only_system_python then 0 else 1) +
       (if cfgNoPin.has_python_version_pin then 0 else 1)) :=
  (c2_check_compliance cfgNoPin).2

theorem c3_witness :
    (envVF.version.1 = 3 ∧ envVF.version.2.1 = 13) ∧
    (envVF.is_valid = true ↔ ¬(rVF.status = .FAIL ∧ rVF.uv_configuration = none)) :=
  c3_validity_flag wVF "/proj" rVF envVF (by rfl) (by rfl)

theorem c4_witness :
    rPass.errors = [] ∧
    rPass.uv_configuration.map (fun c => c.is_compliant) = some true ∧
    rPass.python_environment.map (fun e => e.is_valid) = some true ∧
    ((rPass.python_environment.bind (fun e => e.venv_base_python)).map
      (fun b => is_python_313 wPass b)).getD true = true :=
  c4_pass_invariant wPass "/proj" rPass (by rfl) (by rfl)

theorem c5_witness :
    find_system_python w5 = some "/usr/local/bin/python3.13" :=
  ((c5_locator_first_match w5).2 "/usr/local/bin/python3.13").mpr
    ⟨["/usr/bin/python3.13"], ["/opt/homebrew/bin/python3.13"], by rfl, by rfl,
     by decide⟩

theorem c6_witness :
    strContains sFC "Missing .python-version file to pin Python 3.13" = true :=
  c6_fail_summary rFC sFC cfgFC "Missing .python-version file to pin Python 3.13"
    (by rfl) (by rfl) (by rfl) (by decide)

theorem c7_witness :
    parseVersionOutput "Python 3.13.0rc1" = some (3, 13, 0) :=
  c7_version_parse.1 "3" "13" "0" "rc1" (by decide) (by decide) (by decide)
    (by decide) (by decide)

theorem c8_witness : rPass.exit_code = 0 ↔ rPass.status = .PASS :=
  (c8_exit_code rPass).1

theorem c9_witness :
    is_python_313 w5 "/usr/local/bin/python3.13" = true ∧
    strContains "Python 3.13 not found on system" "not 3.13.x as required" = false :=
  ⟨c9_wrong_version_error_unreachable.1 w5 "/usr/local/bin/python3.13" (by rfl),
   c9_wrong_version_error_unreachable.2 wNF "/proj" rNF (by rfl) (by rfl)
     "Python 3.13 not found on system" (by decide)⟩

theorem c10_witness :
    mkPythonEnvironment wNF "/x" (3, 12, 0) .unknown "Linux" true false none ≠
      .ok default :=
  (c10_wrong_version_unconstructible wNF "/x" (3, 12, 0) .unknown "Linux" true
    false none).2 (by decide) default

end MCPManager
